import Mathlib

/-!
# Verification of the BetterMD parsing and tree-conversion engine

This file gives a shallow embedding, in Lean 4, of the core of the
`Better-MD/better-md` Python repository: the character-level HTML parser
(`src/BetterMD/parse/html.py`), the line-oriented Markdown block parser
(`src/BetterMD/parse/markdown.py`), the symbol registry
(`src/BetterMD/parse/collection.py`), and the typed-element rendering layer
(`src/BetterMD/elements/symbol.py`, `input.py`, `title.py`, `text.py`,
`code.py`).  Python exceptions are modelled with `Except`; places where the
Python code would raise are `Except.error` values carrying the kind of
exception.  Mutable object state is modelled by explicit state passing, and
the one place where object identity matters (`Symbol.change_parent`) uses a
small explicit heap.
-/

/-- Kinds of Python exception that the embedded code can raise. -/
inductive PyErr where
  | indexError
  | valueError
  | attributeError
  | assertionError
  | typeError
  | fuelExhausted
  deriving Repr, DecidableEq

/-! ## Python string primitives -/

/-- Python `str.isspace` on a single character, for the ASCII whitespace
characters (space, tab, newline, carriage return, vertical tab, form feed).
Python additionally treats some Unicode code points as whitespace; the inputs
relevant to the claims are ASCII. -/
def pyIsSpace (c : Char) : Bool :=
  c = ' ' || c = '\t' || c = '\n' || c = '\r' || c = '\x0b' || c = '\x0c'

/-- Truthiness of `s.strip()` in Python: `s.strip()` is non-empty iff some
character of `s` is not whitespace.  `pyIsBlank s = true` means `s.strip()`
is falsy. -/
def pyIsBlank (s : String) : Bool :=
  s.data.all pyIsSpace

/-- Python `str.strip()`: remove leading and trailing whitespace. -/
def pyStrip (s : String) : String :=
  ⟨((s.data.dropWhile pyIsSpace).reverse.dropWhile pyIsSpace).reverse⟩

/-- ASCII lower-casing of one character. -/
def pyCharLower (c : Char) : Char :=
  if 'A' ≤ c && c ≤ 'Z' then Char.ofNat (c.toNat + 32) else c

/-- Python `str.lower()` (ASCII case folding; agrees with Python on ASCII). -/
def pyLower (s : String) : String := ⟨s.data.map pyCharLower⟩

/-- `str.startswith` (character-level, kernel-reducible). -/
def pyStartsWith (s pre : String) : Bool :=
  pre.data.isPrefixOf s.data

/-- Drop the first `n` characters (kernel-reducible `String.drop`). -/
def strDropChars (s : String) (n : Nat) : String := ⟨s.data.drop n⟩

/-- Does the string end with a newline character? -/
def strEndsWithNL (s : String) : Bool := s.data.getLast? == some '\n'

/-- Drop the final character (kernel-reducible `String.dropRight 1`). -/
def strDropLastChar (s : String) : String := ⟨s.data.dropLast⟩

/-- Python `sep.join(xs)` (kernel-reducible `String.intercalate`). -/
def pyJoin (sep : String) : List String → String
  | [] => ""
  | [x] => x
  | x :: xs => x ++ sep ++ pyJoin sep xs

/-- Python `s.split(sep)` for a one-character separator
(kernel-reducible). -/
def pySplitOnCharAux (c : Char) : List Char → List Char → List String
  | [], acc => [⟨acc.reverse⟩]
  | d :: rest, acc =>
    if d == c then ⟨acc.reverse⟩ :: pySplitOnCharAux c rest []
    else pySplitOnCharAux c rest (d :: acc)

def pySplitOnChar (c : Char) (s : String) : List String :=
  pySplitOnCharAux c s.data []

/-- Insertion into a Python `dict` represented as an ordered association
list: overwrite in place if the key exists, else append at the end. -/
def dictInsert (l : List (String × String)) (k v : String) :
    List (String × String) :=
  if l.any (fun p => p.1 == k) then
    l.map (fun p => if p.1 == k then (k, v) else p)
  else
    l ++ [(k, v)]

/-! ## Generic tree nodes (html.py output shape)

`parse/typing.py` declares the wire format between parsers and the resolver:
a text node `{type:"text", content, name:"text"}` or an element node
`{type:"element", name, attributes, children}`. -/

/-- A generic node produced by the HTML parser. -/
inductive Node where
  | text (content : String)
  | elem (name : String) (attributes : List (String × String))
      (children : List Node)
  deriving Repr

/-! ## The HTML parser (src/BetterMD/parse/html.py)

The Python parser mutates a tree in place: `handle_tag_open` appends the new
element to the innermost open element's `children` *and* pushes it on
`tag_stack`; subsequent children are appended to it through the stack alias.
The pure embedding keeps each open element as a stack `Frame` holding its
accumulated children, and attaches the materialised element to its parent
when it is popped (on a matching closing tag) or at end of input (for
elements left open).  Because no sibling can be appended to a parent while a
child is open, this yields the same final tree.

`None`-dereference points of the Python code (subscripting
`self.current_tag` when it is `None`, which would raise `TypeError`) are
modelled as `Except.error .typeError`. -/

/-- Parser states of the explicit state machine in `HTMLParser.parse`. -/
inductive HState where
  | TEXT | TAG_START | TAG_NAME
  | BEFORE_ATTRIBUTE_NAME | ATTRIBUTE_NAME | AFTER_ATTRIBUTE_NAME
  | BEFORE_ATTRIBUTE_VALUE
  | ATTRIBUTE_VALUE_DOUBLE_QUOTED | ATTRIBUTE_VALUE_SINGLE_QUOTED
  | ATTRIBUTE_VALUE_UNQUOTED | AFTER_ATTRIBUTE_VALUE_QUOTED
  | SELF_CLOSING_TAG | CLOSING_TAG | COMMENT_OR_DOCTYPE
  deriving Repr, DecidableEq

/-- An open element on `tag_stack`: its name, attributes, and the children
accumulated so far (in document order). -/
structure Frame where
  name : String
  attrs : List (String × String)
  children : List Node
  deriving Repr

/-- The mutable state of `HTMLParser` (`reset` initialises it). -/
structure HPState where
  state : HState
  buffer : String
  attr_name : String
  current_tag : Option (String × List (String × String))
  tag_stack : List Frame
  dom : List Node
  deriving Repr

namespace HTMLParser

/-- `reset`: the initial parser state. -/
def init : HPState :=
  { state := .TEXT, buffer := "", attr_name := "", current_tag := none,
    tag_stack := [], dom := [] }

/-- Append a finished node to the children of the innermost open element,
or to the dom if no element is open (the common body of `handle_text`,
`handle_tag_self_closing`, and the attach part of closing a tag). -/
def attach (n : Node) : List Frame × List Node → List Frame × List Node
  | ([], dom) => ([], dom ++ [n])
  | (f :: rest, dom) => ({ f with children := f.children ++ [n] } :: rest, dom)

/-- Materialise an open frame into an element node. -/
def materialize (f : Frame) : Node := .elem f.name f.attrs f.children

/-- `handle_tag_close(tag_name)`: pop the open-tag stack only when the
top-of-stack element's name equals `tag_name`; otherwise do nothing.  In the
pure embedding, popping also attaches the materialised element to its
parent. -/
def closeTag (tag_name : String) :
    List Frame × List Node → List Frame × List Node
  | ([], dom) => ([], dom)
  | (f :: rest, dom) =>
    if f.name = tag_name then attach (materialize f) (rest, dom)
    else (f :: rest, dom)

/-- `handle_tag_open`: push a frame for the newly opened element (it is
attached to its parent when closed or at end of input; see the module
comment). -/
def openTag (tag : String × List (String × String)) (st : HPState) :
    HPState :=
  { st with tag_stack := ⟨tag.1, tag.2, []⟩ :: st.tag_stack }

/-- `handle_tag_self_closing`: attach the element (no children possible),
without pushing it on the stack. -/
def selfCloseTag (tag : String × List (String × String)) (st : HPState) :
    HPState :=
  let (stk, dom) := attach (.elem tag.1 tag.2 []) (st.tag_stack, st.dom)
  { st with tag_stack := stk, dom := dom }

/-- `handle_text`: attach a text node holding the raw buffer. -/
def addText (s : String) (st : HPState) : HPState :=
  let (stk, dom) := attach (.text s) (st.tag_stack, st.dom)
  { st with tag_stack := stk, dom := dom }

/-- Write `current_tag['attributes'][attr_name] = v`.  When `current_tag`
is `None`, Python raises `TypeError` ('NoneType' object is not
subscriptable). -/
def setAttr (v : String) (st : HPState) : Except PyErr HPState :=
  match st.current_tag with
  | none => .error .typeError
  | some (n, attrs) =>
    .ok { st with current_tag := some (n, dictInsert attrs st.attr_name v) }

/-- `handle_tag_open(self.current_tag)` guarded on `current_tag`: a `None`
tag would poison the stack and raise on the next child append; modelled as
an immediate `TypeError`. -/
def openCurrent (st : HPState) : Except PyErr HPState :=
  match st.current_tag with
  | none => .error .typeError
  | some tag => .ok (openTag tag st)

/-- One iteration of the character loop of `HTMLParser.parse`.  The single
backtrack (`i -= 1` in state AFTER_ATTRIBUTE_VALUE_QUOTED) re-examines the
same character in BEFORE_ATTRIBUTE_NAME, where it deterministically starts a
new attribute name; the embedding performs that composite transition
directly. -/
def step (c : Char) (st : HPState) : Except PyErr HPState :=
  match st.state with
  | .TEXT =>
    if c = '<' then
      let st := if pyIsBlank st.buffer then st else addText st.buffer st
      .ok { st with buffer := "", state := .TAG_START }
    else
      .ok { st with buffer := st.buffer.push c }
  | .TAG_START =>
    if c = '/' then .ok { st with state := .CLOSING_TAG }
    else if c = '!' then
      .ok { st with state := .COMMENT_OR_DOCTYPE, buffer := "!" }
    else
      .ok { st with state := .TAG_NAME, buffer := c.toString }
  | .TAG_NAME =>
    if pyIsSpace c then
      .ok { st with current_tag := some (st.buffer, []), buffer := "",
                    state := .BEFORE_ATTRIBUTE_NAME }
    else if c = '>' then
      let st := { st with current_tag := some (st.buffer, []) }
      do
        let st ← openCurrent st
        .ok { st with buffer := "", state := .TEXT }
    else if c = '/' then
      .ok { st with current_tag := some (st.buffer, []),
                    state := .SELF_CLOSING_TAG }
    else
      .ok { st with buffer := st.buffer.push c }
  | .BEFORE_ATTRIBUTE_NAME =>
    if pyIsSpace c then .ok st
    else if c = '>' then do
      let st ← openCurrent st
      .ok { st with buffer := "", state := .TEXT }
    else if c = '/' then .ok { st with state := .SELF_CLOSING_TAG }
    else
      .ok { st with attr_name := c.toString, state := .ATTRIBUTE_NAME }
  | .ATTRIBUTE_NAME =>
    if pyIsSpace c then do
      let st ← setAttr "" st
      .ok { st with state := .AFTER_ATTRIBUTE_NAME }
    else if c = '=' then
      .ok { st with state := .BEFORE_ATTRIBUTE_VALUE }
    else if c = '>' then do
      let st ← setAttr "" st
      let st ← openCurrent st
      .ok { st with buffer := "", state := .TEXT }
    else if c = '/' then do
      let st ← setAttr "" st
      .ok { st with state := .SELF_CLOSING_TAG }
    else
      .ok { st with attr_name := st.attr_name.push c }
  | .AFTER_ATTRIBUTE_NAME =>
    if pyIsSpace c then .ok st
    else if c = '=' then
      .ok { st with state := .BEFORE_ATTRIBUTE_VALUE }
    else if c = '>' then do
      let st ← openCurrent st
      .ok { st with buffer := "", state := .TEXT }
    else if c = '/' then .ok { st with state := .SELF_CLOSING_TAG }
    else do
      let st ← setAttr "" st
      .ok { st with attr_name := c.toString, state := .ATTRIBUTE_NAME }
  | .BEFORE_ATTRIBUTE_VALUE =>
    if pyIsSpace c then .ok st
    else if c = '"' then
      .ok { st with buffer := "",
                    state := .ATTRIBUTE_VALUE_DOUBLE_QUOTED }
    else if c = '\'' then
      .ok { st with buffer := "",
                    state := .ATTRIBUTE_VALUE_SINGLE_QUOTED }
    else if c = '>' then do
      let st ← setAttr "" st
      let st ← openCurrent st
      .ok { st with buffer := "", state := .TEXT }
    else
      .ok { st with buffer := c.toString,
                    state := .ATTRIBUTE_VALUE_UNQUOTED }
  | .ATTRIBUTE_VALUE_DOUBLE_QUOTED =>
    if c = '"' then do
      let st ← setAttr st.buffer st
      .ok { st with buffer := "", state := .AFTER_ATTRIBUTE_VALUE_QUOTED }
    else
      .ok { st with buffer := st.buffer.push c }
  | .ATTRIBUTE_VALUE_SINGLE_QUOTED =>
    if c = '\'' then do
      let st ← setAttr st.buffer st
      .ok { st with buffer := "", state := .AFTER_ATTRIBUTE_VALUE_QUOTED }
    else
      .ok { st with buffer := st.buffer.push c }
  | .ATTRIBUTE_VALUE_UNQUOTED =>
    if pyIsSpace c then do
      let st ← setAttr st.buffer st
      .ok { st with buffer := "", state := .BEFORE_ATTRIBUTE_NAME }
    else if c = '>' then do
      let st ← setAttr st.buffer st
      let st ← openCurrent st
      .ok { st with buffer := "", state := .TEXT }
    else if c = '/' then do
      let st ← setAttr st.buffer st
      .ok { st with buffer := "", state := .SELF_CLOSING_TAG }
    else
      .ok { st with buffer := st.buffer.push c }
  | .AFTER_ATTRIBUTE_VALUE_QUOTED =>
    if pyIsSpace c then .ok { st with state := .BEFORE_ATTRIBUTE_NAME }
    else if c = '/' then .ok { st with state := .SELF_CLOSING_TAG }
    else if c = '>' then do
      let st ← openCurrent st
      .ok { st with buffer := "", state := .TEXT }
    else
      -- Python: `state = BEFORE_ATTRIBUTE_NAME; i -= 1`; re-entry with the
      -- same character lands in the final branch of BEFORE_ATTRIBUTE_NAME.
      .ok { st with attr_name := c.toString, state := .ATTRIBUTE_NAME }
  | .SELF_CLOSING_TAG =>
    if c = '>' then
      match st.current_tag with
      | none => .error .typeError
      | some tag =>
        .ok { selfCloseTag tag st with buffer := "", state := .TEXT }
    else
      .ok st
  | .CLOSING_TAG =>
    if c = '>' then
      let (stk, dom) := closeTag st.buffer (st.tag_stack, st.dom)
      .ok { st with tag_stack := stk, dom := dom, buffer := "",
                    state := .TEXT }
    else
      .ok { st with buffer := st.buffer.push c }
  | .COMMENT_OR_DOCTYPE =>
    -- No handler exists for this state in the Python `elif` chain: every
    -- subsequent character is consumed with no effect.
    .ok st

/-- The character loop of `HTMLParser.parse`. -/
def runChars : List Char → HPState → Except PyErr HPState
  | [], st => .ok st
  | c :: cs, st => do
    let st ← step c st
    runChars cs st

/-- End-of-input handling: elements still open were attached to their
parents at open time in the Python code; the pure embedding attaches them
now, innermost first (see the module comment for why the trees agree).
`collapse` makes each open element the last child of the element below it. -/
def collapse : Frame → List Frame → Node
  | f, [] => materialize f
  | f, g :: rest =>
    collapse { g with children := g.children ++ [materialize f] } rest

def finalize : List Frame → List Node → List Node
  | [], dom => dom
  | f :: rest, dom => dom ++ [collapse f rest]

/-- `HTMLParser.parse(html)`: run the state machine over the input, flush a
trailing non-blank text buffer when ending in state TEXT, and return the
dom. -/
def parse (html : String) : Except PyErr (List Node) := do
  let st ← runChars html.data init
  let st :=
    if st.state = .TEXT && !(pyIsBlank st.buffer) then addText st.buffer st
    else st
  .ok (finalize st.tag_stack st.dom)

end HTMLParser

namespace HTMLParser

/-- States in which the Python code subscripts `self.current_tag` (or
passes it to a tag handler), i.e. states requiring `current_tag` to be set:
everything except TEXT, TAG_START, TAG_NAME, CLOSING_TAG and
COMMENT_OR_DOCTYPE. -/
def ctFree : HState → Bool
  | .TEXT | .TAG_START | .TAG_NAME | .CLOSING_TAG | .COMMENT_OR_DOCTYPE => true
  | _ => false

/-- The reachability invariant of the state machine: whenever
`current_tag` is unset, the parser is in a state that does not use it. -/
def Inv (st : HPState) : Prop :=
  st.current_tag = none → ctFree st.state = true

theorem step_ok (c : Char) (st : HPState) (h : Inv st) :
    ∃ st', step c st = .ok st' ∧ Inv st' := by
  obtain ⟨state, buffer, attr_name, ct, stack, dom⟩ := st
  simp only [Inv] at h
  cases state <;>
    simp only [step, setAttr, openCurrent, selfCloseTag, addText, openTag] <;>
    (repeat' split) <;>
    first
      | exact ⟨_, rfl, by intro hn; simp_all [ctFree]⟩
      | (exfalso; simp_all [ctFree])

theorem runChars_ok (cs : List Char) (st : HPState) (h : Inv st) :
    ∃ st', runChars cs st = .ok st' ∧ Inv st' := by
  induction cs generalizing st with
  | nil => exact ⟨st, rfl, h⟩
  | cons c cs ih =>
    obtain ⟨st1, h1, hinv1⟩ := step_ok c st h
    obtain ⟨st2, h2, hinv2⟩ := ih st1 hinv1
    exact ⟨st2, by simp only [runChars]; rw [h1]; exact h2, hinv2⟩

end HTMLParser

/-- **C1.** `HTMLParser.handle_tag_close` pops the open-tag stack only if
the top-of-stack element's name exactly equals the closing tag's name; a
mismatched closing tag leaves the stack (and the tree) unchanged, with no
error.  In particular `"<div><span>text</div>"` parses without error, the
`span` element is never popped (the mismatched `</div>` is ignored), and
the text node ends up inside `span` inside `div`. -/
theorem C1_close_pops_only_on_exact_match :
    (∀ (name : String) (f : Frame) (rest : List Frame) (dom : List Node),
        f.name = name →
        HTMLParser.closeTag name (f :: rest, dom) =
          HTMLParser.attach (HTMLParser.materialize f) (rest, dom)) ∧
    (∀ (name : String) (f : Frame) (rest : List Frame) (dom : List Node),
        f.name ≠ name →
        HTMLParser.closeTag name (f :: rest, dom) = (f :: rest, dom)) ∧
    (∀ (name : String) (dom : List Node),
        HTMLParser.closeTag name ([], dom) = ([], dom)) ∧
    HTMLParser.parse "<div><span>text</div>" =
      .ok [.elem "div" [] [.elem "span" [] [.text "text"]]] := by
  refine ⟨?_, ?_, fun _ _ => rfl, rfl⟩
  · intro name f rest dom hf
    simp [HTMLParser.closeTag, hf]
  · intro name f rest dom hf
    simp [HTMLParser.closeTag, hf]

/-- Witness for C1 at concrete inputs: a mismatched `</div>` close with
`span` on top of the stack is ignored, and a matching `</span>` close pops
and attaches. -/
theorem C1_close_pops_only_on_exact_match_witness :
    HTMLParser.closeTag "div"
        (⟨"span", [], []⟩ :: [⟨"div", [], []⟩], []) =
      (⟨"span", [], []⟩ :: [⟨"div", [], []⟩], []) ∧
    HTMLParser.closeTag "span" ([⟨"span", [], [Node.text "x"]⟩], []) =
      HTMLParser.attach
        (HTMLParser.materialize ⟨"span", [], [Node.text "x"]⟩) ([], []) :=
  ⟨C1_close_pops_only_on_exact_match.2.1 "div" ⟨"span", [], []⟩
      [⟨"div", [], []⟩] [] (by decide),
   C1_close_pops_only_on_exact_match.1 "span" ⟨"span", [], [Node.text "x"]⟩
      [] [] rfl⟩

/-- **C7.** For every input string, `HTMLParser.parse` terminates and
returns a list of nodes without raising: no reachable state of the machine
hits an error branch (the only latent failure points, uses of an unset
`current_tag`, are protected by the invariant `HTMLParser.Inv`). -/
theorem C7_parse_never_raises (html : String) :
    ∃ dom, HTMLParser.parse html = .ok dom := by
  obtain ⟨st, h1, _⟩ :=
    HTMLParser.runChars_ok html.data HTMLParser.init (fun _ => rfl)
  exact ⟨_, by simp only [HTMLParser.parse]; rw [h1]; rfl⟩

/-! ## The symbol registry (src/BetterMD/parse/collection.py)

A registered element type is abstracted by what `find_symbol` inspects: its
`html` attribute, which is either a plain tag-name string or a `CustomHTML`
object with a `verify` predicate (`Collection.find_symbol`, lines 57-61).
The registry itself is the ordered list of registered types
(`Collection.symbols`; `Symbol.__init_subclass__` appends each newly defined
type). -/

/-- The `html` attribute of a registered type: a plain string or a
`CustomHTML` verifier. -/
inductive HtmlAttr where
  | tagName (s : String)
  | custom (verify : String → Bool)

/-- A registered element type, as seen by `find_symbol`. -/
structure SymbolDesc where
  html : HtmlAttr

/-- One iteration of the `find_symbol` loop: `isinstance(symbol.html, str)
and symbol.html == name`, `elif isinstance(symbol.html, CustomHTML) and
symbol.html.verify(name)`. -/
def symbolMatches (s : SymbolDesc) (name : String) : Bool :=
  match s.html with
  | .tagName t => t == name
  | .custom verify => verify name

/-- The scan loop of `Collection.find_symbol`: first match wins. -/
def find_symbol : List SymbolDesc → String → Option SymbolDesc
  | [], _ => none
  | s :: rest, name =>
    if symbolMatches s name then some s else find_symbol rest name

/-- `Collection.find_symbol` with its `raise_errors` flag: a miss raises
`ValueError` when requested, else returns `None`. -/
def find_symbol_raising (symbols : List SymbolDesc) (name : String)
    (raise_errors : Bool) : Except PyErr (Option SymbolDesc) :=
  match find_symbol symbols name with
  | some s => .ok (some s)
  | none => if raise_errors then .error .valueError else .ok none

/-- The `Code` element type (src/BetterMD/elements/code.py): its `html` is
a `CustomHTML` object whose `verify` is `text.lower() == "code"`. -/
def codeSymbol : SymbolDesc :=
  ⟨.custom (fun text => pyLower text == "code")⟩

/-- First-match characterisation helper: `find_symbol` returns `some s` iff
the registry splits as `pre ++ s :: post` with `s` matching and nothing in
`pre` matching. -/
theorem find_symbol_eq_some_iff (symbols : List SymbolDesc) (name : String)
    (s : SymbolDesc) :
    find_symbol symbols name = some s ↔
      ∃ pre post, symbols = pre ++ s :: post ∧
        symbolMatches s name = true ∧
        ∀ t ∈ pre, symbolMatches t name = false := by
  induction symbols with
  | nil =>
    constructor
    · intro h; exact absurd h (by simp [find_symbol])
    · rintro ⟨pre, post, h, -, -⟩
      exact absurd h (by cases pre <;> simp)
  | cons a rest ih =>
    by_cases ha : symbolMatches a name = true
    · constructor
      · intro h
        have hsa : a = s := by
          simp [find_symbol, ha] at h
          exact h
        subst hsa
        exact ⟨[], rest, by simp, ha, by simp⟩
      · rintro ⟨pre, post, hsplit, hs, hpre⟩
        cases pre with
        | nil =>
          obtain ⟨h1, -⟩ : a = s ∧ rest = post := by simpa using hsplit
          subst h1
          simp [find_symbol, ha]
        | cons p ps =>
          obtain ⟨h1, -⟩ : a = p ∧ rest = ps ++ s :: post := by
            simpa using hsplit
          have hp := hpre p (by simp)
          rw [← h1] at hp
          simp [hp] at ha
    · have ha' : symbolMatches a name = false := by simpa using ha
      have hstep : find_symbol (a :: rest) name = find_symbol rest name := by
        simp [find_symbol, ha']
      rw [hstep, ih]
      constructor
      · rintro ⟨pre, post, hsplit, hs, hpre⟩
        refine ⟨a :: pre, post, by simp [hsplit], hs, ?_⟩
        intro t ht
        rcases List.mem_cons.1 ht with h' | h'
        · subst h'; exact ha'
        · exact hpre t h'
      · rintro ⟨pre, post, hsplit, hs, hpre⟩
        cases pre with
        | nil =>
          obtain ⟨h1, -⟩ : a = s ∧ rest = post := by simpa using hsplit
          rw [← h1] at hs
          simp [hs] at ha'
        | cons p ps =>
          obtain ⟨h1, h2⟩ : a = p ∧ rest = ps ++ s :: post := by
            simpa using hsplit
          exact ⟨ps, post, h2, hs, fun t ht => hpre t (by simp [ht])⟩

/-- **C2.** `find_symbol` is a linear scan in registration order returning
the first type whose declared `html` tag string equals the name or whose
`CustomHTML` verify predicate accepts it: (i) a hit is exactly a first
match (nothing registered earlier matches); (ii) when two types `A` and `B`
would both accept the name and `A` was registered first, `A` is returned. -/
theorem C2_find_symbol_first_match (name : String) :
    (∀ (symbols : List SymbolDesc) (s : SymbolDesc),
        find_symbol symbols name = some s ↔
          ∃ pre post, symbols = pre ++ s :: post ∧
            symbolMatches s name = true ∧
            ∀ t ∈ pre, symbolMatches t name = false) ∧
    (∀ (pre : List SymbolDesc) (A B : SymbolDesc)
        (post : List SymbolDesc),
        (∀ t ∈ pre, symbolMatches t name = false) →
        symbolMatches A name = true →
        symbolMatches B name = true →
        find_symbol (pre ++ A :: B :: post) name = some A) := by
  constructor
  · intro symbols s
    exact find_symbol_eq_some_iff symbols name s
  · intro pre A B post hpre hA _
    exact (find_symbol_eq_some_iff (pre ++ A :: B :: post) name A).2
      ⟨pre, B :: post, rfl, hA, hpre⟩

/-- Witness for C2: register `A` then `B`, both of whose verifiers accept
`"x"`; `find_symbol` resolves `"x"` to `A`. -/
theorem C2_find_symbol_first_match_witness :
    find_symbol [⟨.custom (fun n => n == "x")⟩,
                 ⟨.custom (fun n => n == "x")⟩] "x" =
      some ⟨.custom (fun n => n == "x")⟩ :=
  (C2_find_symbol_first_match "x").2 [] ⟨.custom (fun n => n == "x")⟩
    ⟨.custom (fun n => n == "x")⟩ [] (fun t ht => absurd ht (by simp))
    rfl rfl

/-- **C6 (counterexample).** Name resolution is *not* case-sensitive for
every registered type: the registered `Code` element declares a
`CustomHTML` verifier `text.lower() == "code"` (code.py lines 59-69), so
the name `"CODE"`, which differs from `"code"` only in letter case,
resolves to the `Code` type instead of resolving to no type. -/
theorem C6_counterexample_CODE_resolves :
    find_symbol [codeSymbol] "CODE" = some codeSymbol ∧
    "CODE" ≠ "code" := by
  exact ⟨rfl, by decide⟩

/-- **C6 (amended).** Matching against a declared plain tag string is
case-sensitive exact string equality: whenever `find_symbol` returns a type
whose `html` is a tag string `t`, then `t` is literally the queried name.
But a type whose `html` is a `CustomHTML` verifier may match
case-insensitively: the `Code` element's verifier accepts `"CODE"`, so
`"CODE"` resolves to `Code` in a registry containing it. -/
theorem C6_case_sensitivity_only_for_string_tags :
    (∀ (symbols : List SymbolDesc) (name : String) (s : SymbolDesc)
        (t : String),
        find_symbol symbols name = some s →
        s.html = .tagName t → t = name) ∧
    symbolMatches codeSymbol "CODE" = true := by
  constructor
  · intro symbols name s t hfind htag
    obtain ⟨pre, post, -, hmatch, -⟩ :=
      (find_symbol_eq_some_iff symbols name s).1 hfind
    rw [symbolMatches, htag] at hmatch
    exact eq_of_beq hmatch
  · rfl

/-- Witness for C6 (amended): a registry holding one plain-tag type
`"code"`; resolving `"code"` hits it and the returned tag equals the
queried name, while the `Code` verifier accepts the upper-case name. -/
theorem C6_case_sensitivity_only_for_string_tags_witness :
    "code" = "code" ∧ symbolMatches codeSymbol "CODE" = true :=
  ⟨C6_case_sensitivity_only_for_string_tags.1 [⟨.tagName "code"⟩] "code"
      ⟨.tagName "code"⟩ "code" rfl rfl,
   C6_case_sensitivity_only_for_string_tags.2⟩

/-! ## Symbol tree ownership (src/BetterMD/elements/symbol.py)

`set_parent`, `change_parent`, `add_child`, `remove_child` mutate Python
objects linked by references.  Object identity is modelled by a heap of
numbered objects, each with an optional parent reference and a list of
child references. -/

/-- A `Symbol` object as seen by the parent/child bookkeeping methods. -/
structure PyObj where
  parent : Option Nat := none
  children : List Nat := []

/-- A heap of `Symbol` objects addressed by identity. -/
def Heap : Type := Nat → PyObj

/-- Update the object stored at address `i`. -/
def Heap.upd (h : Heap) (i : Nat) (o : PyObj) : Heap :=
  fun j => if j = i then o else h j

/-- `Symbol.add_child`: append `c` to `p`'s `children` list. -/
def addChild (h : Heap) (p c : Nat) : Heap :=
  h.upd p { h p with children := (h p).children ++ [c] }

/-- `Symbol.remove_child`: `self.children.remove(symbol)` removes the first
occurrence; Python raises `ValueError` when the element is absent. -/
def removeChild (h : Heap) (p c : Nat) : Except PyErr Heap :=
  if (h p).children.contains c then
    .ok (h.upd p { h p with children := (h p).children.erase c })
  else
    .error .valueError

/-- `Symbol.set_parent`: `self.parent = parent; self.parent.add_child(self)`. -/
def setParent (h : Heap) (c p : Nat) : Heap :=
  let h1 := h.upd c { h c with parent := some p }
  addChild h1 p c

/-- `Symbol.change_parent`: `self.set_parent(new_parent)` followed by
`self.parent.remove_child(self)` — note that after `set_parent`,
`self.parent` is already the *new* parent. -/
def changeParent (h : Heap) (c new_parent : Nat) : Except PyErr Heap :=
  let h1 := setParent h c new_parent
  removeChild h1 new_parent c

/-- A concrete heap: object 0 is a child of object 1 (`1.children = [0]`),
and object 2 is an unrelated empty symbol. -/
def heap0 : Heap :=
  fun i => if i = 0 then { parent := some 1 } else
           if i = 1 then { children := [0] } else { }

/-- **C3 (as the code behaves).** Calling `change_parent` to move child `0`
from parent `1` to parent `2` does *not* transfer ownership: afterwards the
child's `parent` field is `2`, but the child is still listed in the old
parent's `children` and is *not* in the new parent's `children` (the
`remove_child` call is made on the new parent, which had just received the
child).  This contradicts the claimed atomic detach-and-attach. -/
theorem C3_change_parent_leaves_stale_ownership :
    (changeParent heap0 0 2).map
        (fun h => ((h 0).parent, (h 1).children, (h 2).children)) =
      .ok (some 2, [0], []) := by
  rfl

/-! ## Typed elements and rendering (src/BetterMD/elements)

The claims concern elements whose `html` attribute is a plain tag string
(`Symbol.to_html`'s generic branch, symbol.py line 178-179) and the raw-text
element (`Text`, text.py, whose `html` attribute is the string `"text"` and
which overrides `to_html`/`to_md`/`to_rst`).  A typed tree of such elements
is modelled by `TSym`. -/

/-- A typed element tree: a raw `Text` node or a generic element with a
plain tag string, styles, classes, props, and children. -/
inductive TSym where
  | text (content : String)
  | elem (tag : String) (styles : List (String × String))
      (classes : List String) (props : List (String × String))
      (children : List TSym)

/-- Python `"    " * n`. -/
def pyRepeat (s : String) : Nat → String
  | 0 => ""
  | n + 1 => s ++ pyRepeat s n

/-- The `html` attribute of a typed element (`Text.html` is the string
`"text"`). -/
def htmlAttr : TSym → String
  | .text _ => "text"
  | .elem tag _ _ _ _ => tag

/-- `Symbol.get_prop(prop, default="")`. -/
def getProp (props : List (String × String)) (key : String) : String :=
  ((props.find? (fun p => p.1 == key)).map (fun p => p.2)).getD ""

/-- `len(self.children) == 1 and self.children[0].html == "text"` (the
indent-suppression test in `Symbol.to_html`). -/
def childrenSingleText : List TSym → Bool
  | [c] => htmlAttr c == "text"
  | _ => false

/-- The attribute segment of the generic `Symbol.to_html` f-string
(symbol.py line 179): a leading space when any attribute source is
non-empty, the `class="..."` part, a space when `(styles or classes) and
props` (the Python template emits this condition twice), the
`style="..."` part, the same space condition again, then the
space-joined props (`k="v"`, or bare `k` when the value is empty). -/
def attrsStr (styles : List (String × String)) (classes : List String)
    (props : List (String × String)) : String :=
  (if !styles.isEmpty || !classes.isEmpty || !props.isEmpty then " " else "")
    ++ (if !classes.isEmpty then
          "class=\"" ++ String.intercalate " " classes ++ "\"" else "")
    ++ (if (!styles.isEmpty || !classes.isEmpty) && !props.isEmpty then " "
        else "")
    ++ (if !styles.isEmpty then
          "style=\""
            ++ String.intercalate " "
                (styles.map (fun p => p.1 ++ ":" ++ p.2))
            ++ "\""
        else "")
    ++ (if (!styles.isEmpty || !classes.isEmpty) && !props.isEmpty then " "
        else "")
    ++ String.intercalate " "
        (props.map (fun p =>
          if p.2 ≠ "" then p.1 ++ "=\"" ++ p.2 ++ "\"" else p.1))

mutual

/-- `Symbol.to_html(indent)` for plain-tag elements, and the `Text`
override `Text.to_html(indent)` (text.py line 42: indentation then the raw
text).  The generic branch joins the children's renderings with
`"\n" + "    "*indent`, passing each child `indent+1` — or `0` when the
element has exactly one child whose `html` is `"text"` — and wraps the
result in `<tag ...>...</tag>`, or emits `<tag ... />` when the joined
inner string is empty. -/
def toHtml : TSym → Nat → String
  | .text s, indent => pyRepeat "    " indent ++ s
  | .elem tag styles classes props children, indent =>
    let childIndent := if childrenSingleText children then 0 else indent + 1
    let inner_HTML :=
      String.intercalate ("\n" ++ pyRepeat "    " indent)
        (toHtmlList children childIndent)
    "<" ++ tag ++ attrsStr styles classes props ++
      (if inner_HTML.isEmpty then " />"
       else
         ">" ++ (if 1 < children.length then "\n" else "")
           ++ inner_HTML ++ (if 1 < children.length then "\n" else "")
           ++ "</" ++ tag ++ ">")

/-- The element-wise renderings of a children list at a fixed indent. -/
def toHtmlList : List TSym → Nat → List String
  | [], _ => []
  | s :: rest, ind => toHtml s ind :: toHtmlList rest ind

end

/-- The joined inner HTML of a plain-tag element's children (the
`inner_HTML` local of `Symbol.to_html`). -/
def elemInnerHTML (children : List TSym) (indent : Nat) : String :=
  String.intercalate ("\n" ++ pyRepeat "    " indent)
    (toHtmlList children (if childrenSingleText children then 0 else indent + 1))

/-- Left cancellation for string concatenation (helper). -/
theorem string_append_cancel_left (a b c : String) (h : a ++ b = a ++ c) :
    b = c := by
  have hd : a.data ++ b.data = a.data ++ c.data := by
    have := congrArg String.data h
    simpa [String.data_append] using this
  have : b.data = c.data := List.append_cancel_left hd
  cases b; cases c; exact congrArg String.mk this

/-- **C10.** For a typed element whose `html` attribute is a plain tag
string and whose children render to an empty joined inner string (in
particular, an element with zero children), `to_html` produces the single
self-closing tag `<tag ... />` (attribute segment included), and that
output is not the open-close pair `<tag ...></tag>`. -/
theorem C10_empty_inner_renders_self_closing
    (tag : String) (styles : List (String × String))
    (classes : List String) (props : List (String × String))
    (children : List TSym) (indent : Nat)
    (h : elemInnerHTML children indent = "") :
    toHtml (.elem tag styles classes props children) indent =
        "<" ++ tag ++ attrsStr styles classes props ++ " />" ∧
    toHtml (.elem tag styles classes props children) indent ≠
        ("<" ++ tag ++ attrsStr styles classes props) ++
          ("></" ++ tag ++ ">") := by
  have heq : toHtml (.elem tag styles classes props children) indent =
      "<" ++ tag ++ attrsStr styles classes props ++ " />" := by
    show "<" ++ tag ++ attrsStr styles classes props ++
        (if (elemInnerHTML children indent).isEmpty then " />"
         else ">" ++ (if 1 < children.length then "\n" else "")
           ++ elemInnerHTML children indent
           ++ (if 1 < children.length then "\n" else "")
           ++ "</" ++ tag ++ ">") =
      "<" ++ tag ++ attrsStr styles classes props ++ " />"
    rw [h]
    rfl
  refine ⟨heq, ?_⟩
  intro hcontra
  rw [heq] at hcontra
  have hshape : ("<" ++ tag ++ attrsStr styles classes props) ++ " />" =
      ("<" ++ tag ++ attrsStr styles classes props) ++
        ("></" ++ tag ++ ">") := by
    simpa [String.append_assoc] using hcontra
  have := congrArg String.data
    (string_append_cancel_left _ _ _ hshape)
  rw [show (" />" : String).data = [' ', '/', '>'] from rfl,
      show ("></" ++ tag ++ ">" : String).data =
        '>' :: '<' :: '/' :: (tag.data ++ ['>']) from by
          simp [String.data_append]] at this
  exact absurd (List.head_eq_of_cons_eq this) (by decide)

/-- Witness for C10: a childless `br` element renders as `"<br />"`. -/
theorem C10_empty_inner_renders_self_closing_witness :
    toHtml (.elem "br" [] [] [] []) 1 = "<br />" ∧
    toHtml (.elem "br" [] [] [] []) 1 ≠ "<br></br>" := by
  have h := C10_empty_inner_renders_self_closing "br" [] [] [] [] 1 rfl
  exact ⟨h.1, h.2⟩

namespace InputElement

/-- `Input.to_md` (symbol.py lines 193-194 dispatching to the
`CustomMarkdown` renderer in input.py lines 24-26).  `Symbol.to_md` passes
`self.children` — a Python *list* — as `inner`; for `type == "checkbox"`
the renderer's f-string evaluates `inner.to_md()`, and a list has no
`to_md` attribute, so Python raises `AttributeError` before producing the
task-list string.  For other input types it returns
`symbol.to_html()`. -/
def to_md (styles : List (String × String)) (classes : List String)
    (props : List (String × String)) (children : List TSym) :
    Except PyErr String :=
  if getProp props "type" == "checkbox" then
    .error .attributeError
  else
    .ok (toHtml (.elem "input" styles classes props children) 1)

end InputElement

/-- **C4 (as the code behaves).** `Input(type="checkbox",
checked="checked")` with a single Text child `"done"`: `to_md()` raises
`AttributeError` (input.py line 25 calls `inner.to_md()` on the children
list) instead of returning `"- [x] done"`. -/
theorem C4_checkbox_to_md_raises :
    InputElement.to_md [] []
        [("type", "checkbox"), ("checked", "checked")] [.text "done"] =
      .error .attributeError ∧
    InputElement.to_md [] []
        [("type", "checkbox"), ("checked", "checked")] [.text "done"] ≠
      .ok "- [x] done" :=
  ⟨rfl, fun h => by cases h⟩

namespace TitleElement

/-- `Title`'s Markdown renderer (title.py lines 26-29): evaluates
`inner[0]` first — `IndexError` on an empty list — then raises
`ValueError` unless the list is exactly one `Text`, else returns
`title: "..."` using `Text.to_md()` (the raw text). -/
def to_md (inner : List TSym) : Except PyErr String :=
  match inner with
  | [] => .error .indexError
  | .text s :: [] => .ok ("title: \"" ++ s ++ "\"")
  | _ :: _ => .error .valueError

/-- `Title`'s RST renderer (title.py lines 46-49): same validation, then
`:title: ...` using `Text.to_rst()` (the raw text). -/
def to_rst (inner : List TSym) : Except PyErr String :=
  match inner with
  | [] => .error .indexError
  | .text s :: [] => .ok (":title: " ++ s)
  | _ :: _ => .error .valueError

end TitleElement

/-- **C8 (counterexample).** On an *empty* children list the Title
renderers do not raise `ValueError`: evaluating `inner[0]` raises
`IndexError` before the validation can fire, contradicting the claim that
a `ValueError` is raised for every children list that is not exactly one
Text (including the empty list). -/
theorem C8_counterexample_empty_children_raises_IndexError :
    TitleElement.to_md [] = .error .indexError ∧
    TitleElement.to_md [] ≠ .error .valueError ∧
    TitleElement.to_rst [] = .error .indexError ∧
    TitleElement.to_rst [] ≠ .error .valueError :=
  by refine ⟨rfl, ?_, rfl, ?_⟩ <;> exact fun h => by cases h

/-- **C8 (amended).** The Title renderers validate strictly, but the error
kind depends on the shape: an empty children list raises `IndexError`
(from `inner[0]`); a non-empty list that is not exactly one Text raises
`ValueError`; exactly one Text child yields the formatted title string
(`title: "..."` for Markdown, `:title: ...` for RST). -/
theorem C8_title_renderers_validate (inner : List TSym) :
    (inner = [] →
      TitleElement.to_md inner = .error .indexError ∧
      TitleElement.to_rst inner = .error .indexError) ∧
    (∀ s, inner = [.text s] →
      TitleElement.to_md inner = .ok ("title: \"" ++ s ++ "\"") ∧
      TitleElement.to_rst inner = .ok (":title: " ++ s)) ∧
    (inner ≠ [] → (∀ s, inner ≠ [.text s]) →
      TitleElement.to_md inner = .error .valueError ∧
      TitleElement.to_rst inner = .error .valueError) := by
  refine ⟨?_, ?_, ?_⟩
  · rintro rfl; exact ⟨rfl, rfl⟩
  · rintro s rfl; exact ⟨rfl, rfl⟩
  · intro hne hnot
    match inner with
    | [] => exact absurd rfl hne
    | .text s :: [] => exact absurd rfl (hnot s)
    | .text s :: c :: rest => exact ⟨rfl, rfl⟩
    | .elem t st cl pr ch :: rest => exact ⟨rfl, rfl⟩

/-- Witness for C8 (amended), applied at an empty list, a single Text
child `"done"`, and a two-element list. -/
theorem C8_title_renderers_validate_witness :
    (TitleElement.to_md [] = .error .indexError ∧
      TitleElement.to_rst [] = .error .indexError) ∧
    (TitleElement.to_md [.text "done"] = .ok "title: \"done\"" ∧
      TitleElement.to_rst [.text "done"] = .ok ":title: done") ∧
    (TitleElement.to_md [.text "a", .text "b"] = .error .valueError ∧
      TitleElement.to_rst [.text "a", .text "b"] = .error .valueError) :=
  ⟨(C8_title_renderers_validate []).1 rfl,
   (C8_title_renderers_validate [.text "done"]).2.1 "done" rfl,
   (C8_title_renderers_validate [.text "a", .text "b"]).2.2
      (by simp) (fun s h => by simp at h)⟩

/-! ## A regular-expression engine for the Markdown block patterns

`parse/markdown.py` classifies lines with `re` patterns (`top_level_tags`).
They are embedded as regular expressions matched with Brzozowski
derivatives; each Python pattern of the form `^body$` is matched with
`reFull`, which implements `re`'s anchors: the match starts at index 0 and
`$` accepts the end of the string or a position just before a terminal
newline. -/

/-- Regular expressions over characters; `pr f` matches one character
satisfying `f`. -/
inductive RE where
  | emp
  | eps
  | pr (f : Char → Bool)
  | cat (a b : RE)
  | alt (a b : RE)
  | star (a : RE)

def RE.nullable : RE → Bool
  | .emp => false
  | .eps => true
  | .pr _ => false
  | .cat a b => a.nullable && b.nullable
  | .alt a b => a.nullable || b.nullable
  | .star _ => true

def RE.deriv : RE → Char → RE
  | .emp, _ => .emp
  | .eps, _ => .emp
  | .pr f, c => if f c then .eps else .emp
  | .cat a b, c =>
    if a.nullable then .alt (.cat (a.deriv c) b) (b.deriv c)
    else .cat (a.deriv c) b
  | .alt a b, c => .alt (a.deriv c) (b.deriv c)
  | .star a, c => .cat (a.deriv c) (.star a)

/-- Whole-string matching by iterated derivatives. -/
def RE.matchStr (r : RE) (s : String) : Bool :=
  (s.data.foldl RE.deriv r).nullable

def RE.chr (c : Char) : RE := .pr (fun d => d == c)

def RE.lit (s : String) : RE :=
  s.data.foldr (fun c r => RE.cat (RE.chr c) r) RE.eps

def RE.plus (r : RE) : RE := .cat r (.star r)

def RE.opt (r : RE) : RE := .alt r .eps

/-- `re.match`/`re.search` of a pattern `^body$` (no MULTILINE): `body`
must match the whole string, or the whole string minus one terminal
newline. -/
def reFull (body : RE) (s : String) : Bool :=
  body.matchStr s || (strEndsWithNL s && body.matchStr (strDropLastChar s))

/-- Substring containment (`re.search` for the anchor-free pattern
`"\n\n"`). -/
def pyContainsSub (s sub : String) : Bool :=
  s.data.tails.any (fun t => sub.data.isPrefixOf t)

/-- `.` in a pattern: any character but a newline. -/
def dotRE : RE := .pr (fun c => c ≠ '\n')

def isAsciiAlphaCh (c : Char) : Bool :=
  ('A' ≤ c && c ≤ 'Z') || ('a' ≤ c && c ≤ 'z')

/-- `^> (.+)$` (blockquote). -/
def bqBody : RE := .cat (.chr '>') (.cat (.chr ' ') (.plus dotRE))

/-- `^```([A-Za-z]*)[^.](?:([^`]*)[^.])?```$` (fenced code). -/
def codeBody : RE :=
  .cat (RE.lit "```")
    (.cat (.star (.pr isAsciiAlphaCh))
      (.cat (.pr (fun c => c != '.'))
        (.cat (RE.opt (.cat (.star (.pr (fun c => c != '`')))
                        (.pr (fun c => c != '.'))))
          (RE.lit "```"))))

/-- `#{1,6}`. -/
def hashes16 : RE :=
  .cat (.chr '#') (.opt (.cat (.chr '#') (.opt (.cat (.chr '#')
    (.opt (.cat (.chr '#') (.opt (.cat (.chr '#') (.opt (.chr '#'))))))))))

/-- `^(#{1,6})(?: (.*))?$` (header). -/
def hBody : RE := .cat hashes16 (.opt (.cat (.chr ' ') (.star dotRE)))

/-- `^---+$` (horizontal rule). -/
def hrBody : RE := .cat (.chr '-') (.cat (.chr '-') (.plus (.chr '-')))

/-- `[ |\t]` — the literal class: space, pipe, tab. -/
def indentClsRE : RE := .star (.pr (fun c => c == ' ' || c == '|' || c == '\t'))

/-- `^([ |\t]*)(?:-|\+|\*)(?: (.*))?$` (unordered list). -/
def ulBody : RE :=
  .cat indentClsRE
    (.cat (.pr (fun c => c == '-' || c == '+' || c == '*'))
      (.opt (.cat (.chr ' ') (.star dotRE))))

/-- `^([ |\t]*)(\d)\.(?: (.*))?$` (ordered list; note `\d` is a single
digit). -/
def olBody : RE :=
  .cat indentClsRE
    (.cat (.pr (fun c => '0' ≤ c && c ≤ '9'))
      (.cat (.chr '.') (.opt (.cat (.chr ' ') (.star dotRE)))))

/-- `^\|(?:[^|\n]+\|)+$` (table row). -/
def trBody : RE :=
  .cat (.chr '|')
    (.plus (.cat (.plus (.pr (fun c => c != '|' && c != '\n'))) (.chr '|')))

/-- `^\|(?::?-+:?\|)+$` (table alignment-separator row). -/
def theadBody : RE :=
  .cat (.chr '|')
    (.plus (.cat (RE.opt (.chr ':'))
      (.cat (.plus (.chr '-')) (.cat (RE.opt (.chr ':')) (.chr '|')))))

/-- `^title: .+$` (title directive; note: **no capture groups**). -/
def titleBody : RE := .cat (RE.lit "title: ") (.plus dotRE)

/-- `any(re.match(pattern, line) for pattern in self.top_level_tags.values())`
in dict order: blockquote, br, code, h, hr, ul, ol, tr, thead, title.
`re.match(r"\n\n", line)` is a prefix match. -/
def anyTopLevel (line : String) : Bool :=
  reFull bqBody line || pyStartsWith line "\n\n" ||
    reFull codeBody line || reFull hBody line || reFull hrBody line ||
    reFull ulBody line || reFull olBody line || reFull trBody line ||
    reFull theadBody line || reFull titleBody line

/-! ## The Markdown block parser (src/BetterMD/parse/markdown.py) -/

/-- Python `str.splitlines()` for the line boundaries `\n`, `\r\n`, `\r`
(no trailing empty line for a terminal newline; the Unicode-only
separators do not occur in the inputs considered). -/
def pySplitlinesAux : List Char → List Char → List String
  | [], acc => if acc.isEmpty then [] else [⟨acc.reverse⟩]
  | '\r' :: '\n' :: rest, acc => ⟨acc.reverse⟩ :: pySplitlinesAux rest []
  | '\n' :: rest, acc => ⟨acc.reverse⟩ :: pySplitlinesAux rest []
  | '\r' :: rest, acc => ⟨acc.reverse⟩ :: pySplitlinesAux rest []
  | c :: rest, acc => pySplitlinesAux rest (c :: acc)

def pySplitlines (s : String) : List String := pySplitlinesAux s.data []

/-- Python `str.strip(ch)` for a single strip character. -/
def pyStripChar (c : Char) (s : String) : String :=
  ⟨((s.data.dropWhile (· == c)).reverse.dropWhile (· == c)).reverse⟩

/-- Python `str.index(sub)`: position of the first occurrence, or
`ValueError`. -/
def firstIndexFrom : List Char → List Char → Option Nat
  | l, sub =>
    if sub.isPrefixOf l then some 0
    else
      match l with
      | [] => none
      | _ :: t => (firstIndexFrom t sub).map (· + 1)

def pyIndex (s sub : String) : Except PyErr Nat :=
  match firstIndexFrom s.data sub.data with
  | some i => .ok i
  | none => .error .valueError

/-- Leftmost-greedy groups of `^(#{1,6})(?: (.*))?$`: the hash run (only
the full run can match, since a shorter one is followed by `#`, which is
neither a space nor the end) and the optional text after one space. -/
def hExtract (line : String) : Option (Nat × Option String) :=
  let k := (line.data.takeWhile (fun c => c == '#')).length
  if 1 ≤ k && k ≤ 6 then
    match line.data.drop k with
    | [] => some (k, none)
    | ' ' :: tail =>
      if tail.all (fun c => c != '\n') then some (k, some ⟨tail⟩) else none
    | _ => none
  else none

/-- Leftmost-greedy groups of the ul pattern: group(1) is the (maximal)
run of `[ |\t]` — maximal is forced because the marker characters are not
in the class — and group(2) is the optional text after one space following
the marker. -/
def ulExtract (line : String) : Option (Nat × Option String) :=
  let ind :=
    (line.data.takeWhile (fun c => c == ' ' || c == '|' || c == '\t')).length
  match line.data.drop ind with
  | [] => none
  | m :: rest =>
    if m == '-' || m == '+' || m == '*' then
      match rest with
      | [] => some (ind, none)
      | ' ' :: tail =>
        if tail.all (fun c => c != '\n') then some (ind, some ⟨tail⟩)
        else none
      | _ => none
    else none

/-- Leftmost-greedy groups of the ol pattern: group(1) is the indent run
and group(2) is the single digit `(\d)` — *not* the item text, which is
the uncaptured-by-group-2 `(.*)`. -/
def olExtract (line : String) : Option (Nat × Option String) :=
  let ind :=
    (line.data.takeWhile (fun c => c == ' ' || c == '|' || c == '\t')).length
  match line.data.drop ind with
  | d :: '.' :: rest =>
    if '0' ≤ d && d ≤ '9' then
      match rest with
      | [] => some (ind, some ⟨[d]⟩)
      | ' ' :: tail =>
        if tail.all (fun c => c != '\n') then some (ind, some ⟨[d]⟩)
        else none
      | _ => none
    else none
  | _ => none

/-- Groups 1 and 2 of the fenced-code pattern, hand-compiled with
backtracking priority: longest `[A-Za-z]*` run first, the optional
`([^`]*)[^.]` group present before absent with longest content first, and
a full-string match attempted before the match that leaves a terminal
newline for `$`. -/
def codeTryEnd (t : List Char) : Option (String × Option String) :=
  let maxLang := (t.takeWhile isAsciiAlphaCh).length
  (List.range (maxLang + 1)).reverse.findSome? (fun langLen =>
    let lang : String := ⟨t.take langLen⟩
    match t.drop langLen with
    | [] => none
    | c1 :: rest2 =>
      if c1 == '.' then none
      else
        let present :=
          (List.range (rest2.length + 1)).reverse.findSome? (fun contentLen =>
            let content := rest2.take contentLen
            match rest2.drop contentLen with
            | [c2, '`', '`', '`'] =>
              if c2 != '.' && content.all (fun c => c != '`') then
                some (lang, some (⟨content⟩ : String))
              else none
            | _ => none)
        match present with
        | some res => some res
        | none => if rest2 == ['`', '`', '`'] then some (lang, none) else none)

def codeExtract (s : String) : Option (String × Option String) :=
  let attempt := fun (cs : List Char) =>
    match cs with
    | '`' :: '`' :: '`' :: t => codeTryEnd t
    | _ => none
  match attempt s.data with
  | some r => some r
  | none =>
    if strEndsWithNL s then attempt s.data.dropLast else none

/-- A node of the Markdown parser's output.  `create_text` can receive
`None` (a vacuous regex group), so text content is optional; `elemD`
represents an element whose `children` field was *assigned a single parse
result* rather than a list (`handle_blockquote` does
`elm["children"] = MDParser().parse(...)`). -/
inductive MDNode where
  | text (content : Option String)
  | elem (name : String) (attrs : List (String × String))
      (children : List MDNode)
  | elemD (name : String) (attrs : List (String × String)) (childDoc : MDNode)
  deriving Repr

/-- The mutable state of `MDParser` used by the block handlers (the
`list_stack`/`dom_stack` fields are initialised but never read). -/
structure MDSt where
  dom : List MDNode := []
  buffer : String := ""
  deriving Repr

/-- `MDParser.end_block`: flush the paragraph buffer into a `p` element
if its stripped text is non-empty. -/
def end_block (st : MDSt) : MDSt :=
  if st.buffer ≠ "" then
    let text := pyStrip st.buffer
    if text ≠ "" then
      { dom := st.dom ++ [.elem "p" [] [.text (some text)]], buffer := "" }
    else { st with buffer := "" }
  else st

/-- `MDParser.handle_br(text)` with a list argument (as called from
`parse`): appends a `br` element when the first two entries are both empty
strings. -/
def handle_br (text : List String) (st : MDSt) :
    Except PyErr (MDSt × Nat) :=
  let st := end_block st
  match text with
  | [] => .error .indexError
  | [a] => if a = "" then .error .indexError else .ok (st, 0)
  | a :: b :: _ =>
    if a = "" && b = "" then
      .ok ({ st with dom := st.dom ++ [.elem "br" [] []] }, 1)
    else .ok (st, 0)

/-- `MDParser.handle_h`. -/
def handle_h (line : String) (st : MDSt) : Except PyErr MDSt :=
  let st := end_block st
  match hExtract line with
  | none => .error .assertionError
  | some (level, content) =>
    .ok { st with
          dom := st.dom ++ [.elem ("h" ++ toString level) [] [.text content]] }

/-- `MDParser.handle_hr`. -/
def handle_hr (st : MDSt) : MDSt :=
  let st := end_block st
  { st with dom := st.dom ++ [.elem "hr" [] []] }

/-- `MDParser.handle_title`: after the assertion that the title pattern
matched, `title = match.group(1)` — but the pattern `^title: .+$` has no
capture groups, so `group(1)` raises `IndexError`.  (Were it to succeed,
the built `head` would still be discarded: see `mdParse`.) -/
def handle_title (line : String) (st : MDSt) : Except PyErr MDSt :=
  let _st := end_block st
  if reFull titleBody line then .error .indexError
  else .error .assertionError

/-- `MDParser.handle_text`: blank lines are delegated to `handle_br`
*with the string as argument* (its elements are then one-character
strings, which are never equal to `""`, so nothing is appended; an empty
string raises `IndexError` at `text[0]`); otherwise the line is buffered
for paragraph handling. -/
def handle_text (line : String) (st : MDSt) : Except PyErr MDSt :=
  if pyStrip line = "" then
    let st := end_block st
    match line.data with
    | [] => .error .indexError
    | _ :: _ => .ok st
  else
    if st.buffer ≠ "" then .ok { st with buffer := st.buffer ++ "\n" ++ line }
    else .ok { st with buffer := line }

/-- Append the accumulated item (space-joined, stripped) as an `li` when
non-empty; the common tail of the item branch and the loop exit in
`handle_list`. -/
def appendItem (items : List MDNode) (current_item : List String) :
    List MDNode :=
  if current_item ≠ [] then
    let content := pyStrip (pyJoin " " current_item)
    if content ≠ "" then items ++ [.elem "li" [] [.text (some content)]]
    else items
  else items

/-- The scanning loop of `MDParser.handle_table`: alignment-separator rows
flip the section to `tbody`; `tr` rows are split on `|` into `th`/`td`
cells; a blank or non-matching line stops the scan. -/
def tableLoop : List String → Bool → List MDNode → List MDNode → Nat →
    List MDNode × List MDNode × Nat
  | [], _, thead, tbody, lp => (thead, tbody, lp)
  | line :: rest, inThead, thead, tbody, lp =>
    if pyStrip line = "" then (thead, tbody, lp)
    else if reFull theadBody line then tableLoop rest false thead tbody (lp + 1)
    else if reFull trBody line then
      let cells := (pySplitOnChar '|' (pyStripChar '|' line)).map pyStrip
      let row := MDNode.elem "tr" []
        (cells.map (fun cell =>
          MDNode.elem (if inThead then "th" else "td") []
            [.text (some (pyStrip cell))]))
      if inThead then tableLoop rest inThead (thead ++ [row]) tbody (lp + 1)
      else tableLoop rest inThead thead (tbody ++ [row]) (lp + 1)
    else (thead, tbody, lp)

/-- `MDParser.handle_table`: if the next line is not an
alignment-separator row this is not a table and the raw line is handed to
`handle_text`; otherwise scan rows into `thead`/`tbody` sections. -/
def handle_table (text : List String) (i : Nat) (st : MDSt) :
    Except PyErr (MDSt × Nat) :=
  if i + 1 ≥ text.length || !(reFull theadBody (text.getD (i + 1) "")) then do
    let st ← handle_text (text.getD i "") st
    .ok (st, 1)
  else
    let (theadRows, tbodyRows, lp) := tableLoop (text.drop i) true [] [] 0
    let tchildren :=
      (if !theadRows.isEmpty then [MDNode.elem "thead" [] theadRows] else [])
        ++ (if !tbodyRows.isEmpty then [MDNode.elem "tbody" [] tbodyRows]
            else [])
    .ok ({ st with dom := st.dom ++ [.elem "table" [] tchildren] }, lp)

/-- `MDParser.handle_code`: re-match the joined remaining text, build
`pre > code[language=...]`, and return
`"\n".join(text)["\n".join(text).index("```"):].index("```")` (computed
literally with `pyIndex`). -/
def handle_code (text : List String) (st : MDSt) :
    Except PyErr (MDSt × Nat) := do
  let st := end_block st
  let joined := pyJoin "\n" text
  match codeExtract joined with
  | none => .error .assertionError
  | some (lang, content) =>
    let st := { st with
      dom := st.dom ++
        [.elem "pre" []
          [.elem "code" [("language", lang)] [.text content]]] }
    let i1 ← pyIndex joined "```"
    let i2 ← pyIndex ⟨joined.data.drop i1⟩ "```"
    .ok (st, i2)

/-- The scanning loop of `MDParser.handle_blockquote`: lines matching the
blockquote pattern contribute their stripped content (after removing the
`"> "`/`">"` markers); blank lines flush a paragraph (and a `""`
separator); lines matching no top-level pattern are unmarked
continuations; any other line stops the scan.  Returns the accumulated
`new_text` list. -/
def bqScan : List String → List String → List String → List String
  | [], current_line, new_text =>
    if current_line ≠ [] then
      new_text ++ [pyJoin " " current_line]
    else new_text
  | line :: rest, current_line, new_text =>
    if reFull bqBody line then
      let r1 := if pyStartsWith line "> " then strDropChars line 2 else line
      let r2 := if pyStartsWith r1 ">" then strDropChars r1 1 else r1
      let content := pyStrip r2
      bqScan rest
        (if content ≠ "" then current_line ++ [content] else current_line)
        new_text
    else if pyStrip line = "" then
      if current_line ≠ [] then
        bqScan rest [] (new_text ++ [pyJoin " " current_line, ""])
      else bqScan rest current_line new_text
    else if !(anyTopLevel line) then
      bqScan rest (current_line ++ [pyStrip line]) new_text
    else
      if current_line ≠ [] then
        new_text ++ [pyJoin " " current_line]
      else new_text

mutual

/-- `MDParser.handle_list(text, i, indent_level)`: detect ul vs ol on the
raw line `text[i]`, then run the item loop.  Returns the updated state and
`lines_processed`. -/
def handle_list (fuel : Nat) (text : List String) (i : Nat)
    (indent_level : Nat) (st : MDSt) : Except PyErr (MDSt × Nat) :=
  match fuel with
  | 0 => .error .fuelExhausted
  | fuel + 1 =>
    match text.get? i with
    | none => .error .indexError
    | some line0 =>
      if reFull ulBody line0 then do
        let (st, lp, current_item, items) ←
          listLoop fuel true text i indent_level 0 [] [] st
        let items := appendItem items current_item
        .ok ({ st with dom := st.dom ++ [.elem "ul" [] items] }, lp)
      else if reFull olBody line0 then do
        let (st, lp, current_item, items) ←
          listLoop fuel false text i indent_level 0 [] [] st
        let items := appendItem items current_item
        .ok ({ st with dom := st.dom ++ [.elem "ol" [] items] }, lp)
      else .ok (st, 0)

/-- The `while` loop of `handle_list`.  Blank lines push a `""` paragraph
break into the current item; a line matching the list pattern at smaller
indent ends the level, at greater indent triggers a recursive nested parse
(Python adds `lines_processed + nested` to `lines_processed`, double
counting `lines_processed`), at equal indent closes the previous item and
starts a new one from `group(2)` (whose `None.strip()` raises
`AttributeError` for a bare ul marker); a non-list line matching no
top-level pattern is an item continuation; anything else breaks. -/
def listLoop (fuel : Nat) (isUl : Bool) (text : List String) (i : Nat)
    (indent_level : Nat) (lp : Nat) (current_item : List String)
    (items : List MDNode) (st : MDSt) :
    Except PyErr (MDSt × Nat × List String × List MDNode) :=
  match fuel with
  | 0 => .error .fuelExhausted
  | fuel + 1 =>
    match text.get? (i + lp) with
    | none => .ok (st, lp, current_item, items)
    | some line =>
      if pyStrip line = "" then
        let current_item :=
          if current_item ≠ [] then current_item ++ [""] else current_item
        listLoop fuel isUl text i indent_level (lp + 1) current_item items st
      else
        match (if isUl then ulExtract line else olExtract line) with
        | some (indent, g2) =>
          if indent < indent_level then .ok (st, lp, current_item, items)
          else if indent > indent_level then do
            let (st, nested) ← handle_list fuel (text.drop (i + lp)) 0 indent st
            listLoop fuel isUl text i indent_level (lp + (lp + nested))
              current_item items st
          else
            let items := appendItem items current_item
            match g2 with
            | none => .error .attributeError
            | some g =>
              listLoop fuel isUl text i indent_level (lp + 1) [pyStrip g]
                items st
        | none =>
          if !(anyTopLevel line) then
            listLoop fuel isUl text i indent_level (lp + 1)
              (current_item ++ [pyStrip line]) items st
          else .ok (st, lp, current_item, items)

/-- `MDParser.handle_blockquote(text, i)`: scan the lines, recursively
parse the accumulated text with a fresh parser, assign the resulting
*document node* to the blockquote's `children` field, append to the dom.
Python returns `len(new_text) - 1`; since `parse` then advances by
`lines_processed + 1`, this function returns `new_text.length` and the
caller adds no further 1. -/
def handle_blockquote (fuel : Nat) (text : List String) (i : Nat)
    (st : MDSt) : Except PyErr (MDSt × Nat) :=
  match fuel with
  | 0 => .error .fuelExhausted
  | fuel + 1 => do
    let new_text := bqScan (text.drop i) [] []
    let child ← mdParse fuel (pyJoin "\n" new_text)
    .ok ({ st with dom := st.dom ++ [.elemD "blockquote" [] child] },
         new_text.length)

/-- The line-dispatch loop of `MDParser.parse` (the second header check,
which duplicates the first and is unreachable, is omitted).  All
dispatch tests run on the stripped line (`line = lines[i].strip()`),
while the handlers for blockquotes, code, lists, tables and breaks
receive the raw `lines`. -/
def mdLoop (fuel : Nat) (lines : List String) (i : Nat) (st : MDSt) :
    Except PyErr MDSt :=
  match fuel with
  | 0 => .error .fuelExhausted
  | fuel + 1 =>
    if i < lines.length then
      let line := pyStrip (lines.getD i "")
      if line = "" then mdLoop fuel lines (i + 1) (end_block st)
      else if reFull hBody line then do
        let st ← handle_h line (end_block st)
        mdLoop fuel lines (i + 1) st
      else if reFull bqBody line then do
        let (st, cnt) ← handle_blockquote fuel lines i (end_block st)
        mdLoop fuel lines (i + cnt) st
      else if reFull codeBody (pyJoin "\n" (lines.drop i)) then do
        let (st, lp) ← handle_code (lines.drop i) (end_block st)
        mdLoop fuel lines (i + lp + 1) st
      else if reFull hrBody line then
        mdLoop fuel lines (i + 1) (handle_hr (end_block st))
      else if reFull ulBody line || reFull olBody line then do
        let (st, lp) ← handle_list fuel lines i 0 (end_block st)
        mdLoop fuel lines (i + lp) st
      else if reFull trBody line then do
        let (st, lp) ← handle_table lines i (end_block st)
        mdLoop fuel lines (i + lp) st
      else if reFull titleBody line then do
        let st ← handle_title line (end_block st)
        mdLoop fuel lines (i + 1) st
      else if pyContainsSub line "\n\n" then do
        let (st, lp) ← handle_br (lines.drop i) (end_block st)
        mdLoop fuel lines (i + lp) st
      else do
        let st ← handle_text line st
        mdLoop fuel lines (i + 1) st
    else .ok st

/-- `MDParser.parse(markdown)`: split into lines, run the dispatch loop,
flush the trailing block, and return `html > {head, body}`.  The head is
`self.create_element("head") or self.head` — a freshly created dict is
always truthy, so any head built by `handle_title` is discarded and the
returned head is always the fresh empty element. -/
def mdParse (fuel : Nat) (markdown : String) : Except PyErr MDNode :=
  match fuel with
  | 0 => .error .fuelExhausted
  | fuel + 1 => do
    let lines := pySplitlines markdown
    let st ← mdLoop fuel lines 0 {}
    let st := end_block st
    let head := MDNode.elem "head" [] []
    let body := MDNode.elem "body" [] st.dom
    .ok (MDNode.elem "html" [] [head, body])

end

namespace MDParser

/-- `MDParser.parse` with enough fuel for the input: each loop iteration
and each recursive sub-parse consumes lines or characters of the input, so
`length + 16` iterations suffice for the concrete inputs evaluated here
(running out of fuel yields the distinguished error `fuelExhausted`,
never a wrong tree). -/
def parse (markdown : String) : Except PyErr MDNode :=
  mdParse (markdown.length + 16) markdown

end MDParser


/-- **C5 (as the code behaves).** A Markdown input containing a title
directive makes `MDParser.parse` raise `IndexError`: `handle_title` calls
`match.group(1)` but the title pattern `^title: .+$` has no capture
groups.  (Independently, the returned head could never hold the title:
`parse` computes `head = self.create_element("head") or self.head`, and a
freshly created element is always truthy; the second conjunct shows the
returned head child is the fresh empty element.) -/
theorem C5_title_directive_raises_IndexError :
    MDParser.parse "title: Hello" = .error .indexError ∧
    MDParser.parse "Some text" =
      .ok (.elem "html" []
        [.elem "head" [] [],
         .elem "body" [] [.elem "p" [] [.text (some "Some text")]]]) :=
  ⟨rfl, rfl⟩

/-- **C9 (as the code behaves).** `handle_blockquote` consumes the
contiguous blockquote run but returns `len(new_text) - 1` (its docstring
promises the number of lines consumed); on `"> a\n> b"` the scan consumes
both lines into one paragraph `"a b"`, the function returns `0`, and the
main loop advances by `0 + 1` — so `"> b"` is processed a second time as
a fresh blockquote.  The body therefore holds *two* blockquote elements,
`"a b"` and `"b"`, instead of one. -/
theorem C9_blockquote_reprocesses_consumed_lines :
    MDParser.parse "> a\n> b" =
      .ok (.elem "html" []
        [.elem "head" [] [],
         .elem "body" []
           [.elemD "blockquote" []
              (.elem "html" []
                [.elem "head" [] [],
                 .elem "body" [] [.elem "p" [] [.text (some "a b")]]]),
            .elemD "blockquote" []
              (.elem "html" []
                [.elem "head" [] [],
                 .elem "body" [] [.elem "p" [] [.text (some "b")]]])]]) :=
  rfl
